import Mathlib

/-!
Verification of the CodeCritic browser client's session and workflow layer.

The definitions below are a shallow embedding of the TypeScript source:
  - lib/auth.ts         : credential store over localStorage
  - lib/api.ts          : axios gateway client and its request interceptor
  - AuthContext.tsx     : session manager (initAuth, login, logout)
  - auth callback page  : OAuth handshake controller (handleCallback)
  - dashboard page      : workflow orchestrator (sync, analyze) — the repo
                          contains two variants of handleAnalyzeRepository,
                          embedded here as V1 and V2
  - analysis results    : issue filter (filteredIssues)
Network calls are modelled by passing the call's result as an explicit
Except value; the number and arguments of calls a handler makes are
recorded in the returned trace.
-/

/-- Backend user identity, from the User interface in lib/auth.ts. -/
structure User where
  id : Nat
  github_id : Nat
  username : String
  name : Option String
  email : Option String
  avatar_url : Option String
  github_url : Option String
  is_active : Bool
  created_at : String
deriving Repr, DecidableEq

/-- Successful token-exchange payload, from the AuthToken interface in
lib/auth.ts: the access token string, its token type (scheme), and the user. -/
structure AuthToken where
  access_token : String
  token_type : String
  user : User
deriving Repr, DecidableEq

/-- An axios request failure as the client inspects it: the optional
backend-provided detail string reached via error.response.data.detail;
none models a transport failure or a response without a detail field. -/
structure ApiError where
  detail : Option String
deriving Repr, DecidableEq

/-- Credential store state: localStorage holds at most the one value under
AUTH_TOKEN_KEY; some t means a stored token, none means absent. -/
def setAuthToken (_store : Option String) (token : String) : Option String :=
  some token

/-- getAuthToken from lib/auth.ts: read the stored credential. -/
def getAuthToken (store : Option String) : Option String :=
  store

/-- removeAuthToken from lib/auth.ts: delete the stored credential. -/
def removeAuthToken (_store : Option String) : Option String :=
  none

/-- JavaScript truthiness of a nullable string, as tested by the source's
conditionals on tokens and query parameters: null, undefined and the empty
string are falsy. -/
def truthy : Option String → Bool
  | none => false
  | some s => !(s == "")

/-- The source's string-or-fallback idiom (value with two question marks and
a double pipe): yield the string when it is present and truthy, else the
fallback — an absent or empty-string value falls through to the fallback. -/
def jsOr (s : Option String) (fallback : String) : String :=
  match s with
  | none => fallback
  | some v => if v == "" then fallback else v

/-- Session manager state from AuthContext.tsx: the user and loading React
state plus the credential store the provider reads and writes. -/
structure AuthState where
  user : Option User
  loading : Bool
  store : Option String
deriving Repr, DecidableEq

/-- Observable outcome of AuthProvider's initAuth effect: the final state,
how many identity-fetch network calls were made, and the user-visible error
message, if any (initAuth's catch only logs to the console, so the code
never produces one). -/
structure InitAuthResult where
  state : AuthState
  identityFetchCalls : Nat
  userVisibleError : Option String
deriving Repr, DecidableEq

/-- initAuth from AuthContext.tsx: read the stored token and, when it is
truthy (the source's if on the token — a stored empty string is falsy and
skips the block), fetch the current user, keeping the user on success and
purging the token on failure; in every path end with loading set to
false. -/
def initAuth (store : Option String) (fetchCurrentUser : Except ApiError User) :
    InitAuthResult :=
  if truthy (getAuthToken store) then
    match fetchCurrentUser with
    | Except.ok userData =>
      { state := { user := some userData, loading := false, store := store }
        identityFetchCalls := 1
        userVisibleError := none }
    | Except.error _ =>
      { state := { user := none, loading := false, store := removeAuthToken store }
        identityFetchCalls := 1
        userVisibleError := none }
  else
    { state := { user := none, loading := false, store := store }
      identityFetchCalls := 0
      userVisibleError := none }

/-- login from AuthContext.tsx: persist the access token string and set the
user from the exchange payload. -/
def login (st : AuthState) (tokenData : AuthToken) : AuthState :=
  { st with
    store := setAuthToken st.store tokenData.access_token
    user := some tokenData.user }

/-- logout from AuthContext.tsx: attempt the backend logout (its failure is
only logged), then unconditionally remove the token and clear the user. -/
def logout (st : AuthState) (_backendResult : Except ApiError Unit) : AuthState :=
  { st with
    store := removeAuthToken st.store
    user := none }

/-- Observable outcome of the callback page's handleCallback effect: the
arguments of each githubCallback (exchange) call in order, the session
state after the handler, the error message displayed, and whether the
router navigated to the dashboard. -/
structure CallbackTrace where
  exchangeCalls : List (String × Option String)
  sessionState : AuthState
  errorMessage : Option String
  navigatedToDashboard : Bool
deriving Repr, DecidableEq

/-- handleCallback from the auth callback page: read code, state and error
from the URL query; a truthy error short-circuits to a denied message, a
falsy code short-circuits to a missing-code message, otherwise call the
exchange once with the code and with the state coerced to absent when falsy
(the source's state-or-undefined), then login and navigate on success or
display the backend detail (else a generic message) on failure. -/
def handleCallback (st : AuthState) (code state error : Option String)
    (exchangeResult : Except ApiError AuthToken) : CallbackTrace :=
  if truthy error then
    { exchangeCalls := []
      sessionState := st
      errorMessage := some "GitHub authentication was denied"
      navigatedToDashboard := false }
  else if !(truthy code) then
    { exchangeCalls := []
      sessionState := st
      errorMessage := some "No authorization code received"
      navigatedToDashboard := false }
  else
    let sentState : Option String := if truthy state then state else none
    match exchangeResult with
    | Except.ok tokenData =>
      { exchangeCalls := [(code.getD "", sentState)]
        sessionState := login st tokenData
        errorMessage := none
        navigatedToDashboard := true }
    | Except.error e =>
      { exchangeCalls := [(code.getD "", sentState)]
        sessionState := st
        errorMessage := some (jsOr e.detail "Authentication failed")
        navigatedToDashboard := false }

/-- Request headers as the gateway builds them: axios.create fixes the JSON
content type; the interceptor may add the Authorization value. -/
structure RequestHeaders where
  contentType : String
  authorization : Option String
deriving Repr, DecidableEq

/-- Default headers of the axios instance in lib/api.ts. -/
def baseHeaders : RequestHeaders :=
  { contentType := "application/json", authorization := none }

/-- The request interceptor in lib/api.ts: read the stored token and, when
it is truthy (the source's if on the token — a stored empty string is falsy
and attaches nothing), set the bearer Authorization header; the interceptor
returns the config and leaves the store untouched (returned unchanged as
evidence). -/
def requestInterceptor (store : Option String) (config : RequestHeaders) :
    RequestHeaders × Option String :=
  match getAuthToken store with
  | some token =>
    if token == "" then (config, store)
    else ({ config with authorization := some ("Bearer " ++ token) }, store)
  | none => (config, store)

/-- Repository row as the dashboard renders it, from its Repository
interface. -/
structure Repository where
  id : Nat
  name : String
  full_name : String
  description : Option String
  html_url : String
  language : Option String
  is_private : Bool
  stars_count : Nat
  forks_count : Nat
  updated_at : String
deriving Repr, DecidableEq

/-- Aggregate repository statistics, from the dashboard's RepoStats
interface; the languages record is held as an association list. -/
structure RepoStats where
  total_repositories : Nat
  total_stars : Nat
  total_forks : Nat
  languages : List (String × Nat)
  private_repos : Nat
  public_repos : Nat
deriving Repr, DecidableEq

/-- Successful response of the repository sync endpoint. -/
structure SyncResult where
  repositories : List Repository
  synced_count : Nat
deriving Repr, DecidableEq

/-- The dashboard React state the sync and stats handlers touch. -/
structure DashboardState where
  repositories : List Repository
  stats : Option RepoStats
  syncing : Bool
deriving Repr, DecidableEq

/-- loadStats from the dashboard: set the stats on success; a failure is
only logged, leaving the previous stats in place. -/
def loadStats (st : DashboardState) (statsResult : Except ApiError RepoStats) :
    DashboardState :=
  match statsResult with
  | Except.ok repoStats => { st with stats := some repoStats }
  | Except.error _ => st

/-- handleSyncRepositories from the dashboard: on success replace the
repository list with the returned set, refresh the stats, and alert the
synced count; on failure alert the backend detail when truthy (present and
nonempty), else the generic text; either way the syncing flag ends false.
The returned string is the alert text shown. -/
def handleSyncRepositories (st : DashboardState)
    (syncResult : Except ApiError SyncResult)
    (statsResult : Except ApiError RepoStats) : DashboardState × String :=
  match syncResult with
  | Except.ok result =>
    let afterRepos := { st with syncing := true, repositories := result.repositories }
    let afterStats := loadStats afterRepos statsResult
    ({ afterStats with syncing := false },
      "Successfully synced " ++ toString result.synced_count ++ " repositories!")
  | Except.error e =>
    ({ st with syncing := false },
      jsOr e.detail "Failed to sync repositories")

/-- Successful response of the start-analysis endpoint. -/
structure StartAnalysisResult where
  analysis_id : Nat
  status : String
deriving Repr, DecidableEq

/-- The single user-facing action a handleAnalyzeRepository run ends with:
a router navigation to a URL, or a blocking alert with a message. -/
inductive AnalyzeAction where
  | navigate (url : String)
  | alert (message : String)
deriving Repr, DecidableEq

/-- The first dashboard variant of handleAnalyzeRepository: every outcome,
success or failure, is reported with an alert; it never navigates. -/
def handleAnalyzeRepositoryV1 (repoName : String)
    (result : Except ApiError StartAnalysisResult) : AnalyzeAction :=
  match result with
  | Except.ok r =>
    if r.status == "completed" then
      AnalyzeAction.alert
        ("✅ Analysis completed for " ++ repoName ++ "!\n\nAnalysis ID: "
          ++ toString r.analysis_id)
    else if r.status == "failed" then
      AnalyzeAction.alert ("❌ Analysis failed for " ++ repoName)
    else
      AnalyzeAction.alert ("⏳ Analysis in progress for " ++ repoName ++ "...")
  | Except.error e =>
    AnalyzeAction.alert ("❌ Error: " ++ jsOr e.detail "Failed to start analysis")

/-- The second dashboard variant of handleAnalyzeRepository: navigate to the
results page for a completed analysis and for one still in progress, but
alert without navigating when the returned status is failed; an exception
is reported with an alert carrying the backend detail when present. -/
def handleAnalyzeRepositoryV2 (repoName : String)
    (result : Except ApiError StartAnalysisResult) : AnalyzeAction :=
  match result with
  | Except.ok r =>
    if r.status == "completed" then
      AnalyzeAction.navigate ("/analysis/results?id=" ++ toString r.analysis_id)
    else if r.status == "failed" then
      AnalyzeAction.alert ("❌ Analysis failed for " ++ repoName)
    else
      AnalyzeAction.navigate ("/analysis/results?id=" ++ toString r.analysis_id)
  | Except.error e =>
    AnalyzeAction.alert ("❌ Error: " ++ jsOr e.detail "Failed to start analysis")

/-- One finding of an analysis, from the results page's CodeIssue
interface. -/
structure CodeIssue where
  id : Nat
  severity : String
  category : String
  file_path : String
  line_number : Option Nat
  title : String
  description : String
  suggestion : Option String
  created_at : String
deriving Repr, DecidableEq

/-- The toLowerCase operation the results page applies to severities,
embedded as the character-wise lowercase map over the string's data. -/
def lowercaseString (s : String) : String :=
  String.mk (s.data.map Char.toLower)

/-- filteredIssues from the results page: keep an issue when the selected
severity is the string all, or when the issue's lowercased severity equals
the selected severity. -/
def filteredIssues (issues : List CodeIssue) (selectedSeverity : String) :
    List CodeIssue :=
  issues.filter (fun issue =>
    selectedSeverity == "all" || lowercaseString issue.severity == selectedSeverity)

/-- Pagination query parameters a list request is sent with. -/
structure PageParams where
  skip : Nat
  limit : Nat
deriving Repr, DecidableEq

/-- The params of the request issued by listRepositories in lib/api.ts: a
caller-omitted argument (none) falls back to the client-side defaults
skip 0 and limit 100, so the request always carries both values. -/
def listRepositoriesRequest (skip limit : Option Nat) : PageParams :=
  { skip := skip.getD 0, limit := limit.getD 100 }

/-- The params of the request issued by listAnalyses in lib/api.ts: a
caller-omitted argument (none) falls back to the client-side defaults
skip 0 and limit 50. -/
def listAnalysesRequest (skip limit : Option Nat) : PageParams :=
  { skip := skip.getD 0, limit := limit.getD 50 }

/-- A concrete user for witness statements. -/
def sampleUser : User :=
  { id := 1
    github_id := 42
    username := "octocat"
    name := none
    email := none
    avatar_url := none
    github_url := none
    is_active := true
    created_at := "2024-01-01" }

/-- A concrete exchange payload for witness statements. -/
def sampleToken : AuthToken :=
  { access_token := "tok-1", token_type := "bearer", user := sampleUser }

/-- A concrete issue for witness statements. -/
def sampleIssue : CodeIssue :=
  { id := 1
    severity := "CRITICAL"
    category := "security"
    file_path := "src/app.ts"
    line_number := some 10
    title := "Hardcoded secret"
    description := "A secret is committed."
    suggestion := none
    created_at := "2024-01-01" }

/-- Claim C3: with no stored credential, initAuth ends unauthenticated —
loading false and session (user) absent — and makes no identity-fetch
network call, for every possible behaviour of the fetch endpoint. -/
theorem startupNoCredentialUnauthenticated :
    ∀ fetchResult : Except ApiError User,
      (initAuth none fetchResult).state.user = none ∧
      (initAuth none fetchResult).state.loading = false ∧
      (initAuth none fetchResult).identityFetchCalls = 0 := by
  intro fetchResult
  exact ⟨rfl, rfl, rfl⟩

/-- Claim C4: with a stored credential — a truthy token, the only kind that
makes initAuth attempt the identity fetch at all — whose identity fetch
fails, initAuth ends unauthenticated (user absent, loading false), the
credential is purged so a subsequent getAuthToken read yields absent, and
no user-visible error is produced. -/
theorem startupFetchFailurePurgesCredential :
    ∀ (token : String) (e : ApiError),
      truthy (some token) = true →
      (initAuth (some token) (Except.error e)).state.user = none ∧
      (initAuth (some token) (Except.error e)).state.loading = false ∧
      getAuthToken (initAuth (some token) (Except.error e)).state.store = none ∧
      (initAuth (some token) (Except.error e)).userVisibleError = none := by
  intro token e h
  simp [initAuth, getAuthToken, removeAuthToken, h]

/-- Claim C4 witness: the stored token tok-1 whose identity fetch fails is
purged, leaving the store absent. -/
theorem startupFetchFailurePurgesCredentialWitness :
    getAuthToken (initAuth (some "tok-1")
        (Except.error { detail := none })).state.store = none :=
  (startupFetchFailurePurgesCredential "tok-1" { detail := none }
    (by decide)).2.2.1

/-- Claim C5: logout ends with the user cleared and the credential purged
from the store for every backend outcome, success or failure alike. -/
theorem logoutAlwaysUnauthenticated :
    ∀ (st : AuthState) (backendResult : Except ApiError Unit),
      (logout st backendResult).user = none ∧
      getAuthToken (logout st backendResult).store = none := by
  intro st backendResult
  exact ⟨rfl, rfl⟩

/-- Claim C8: the request interceptor attaches the bearer Authorization
header exactly when the store holds a token — a truthy value, the source's
if on the token — at request time; when the store is empty, or holds the
falsy empty string, the config is left untouched and carries no
Authorization header; and the interceptor never writes the store — the
store component of its result is always the store it was given. -/
theorem interceptorBearerHeader :
    ∀ (store : Option String) (token : String) (config : RequestHeaders),
      (requestInterceptor store config).2 = store ∧
      (truthy (some token) = true →
        (requestInterceptor (some token) config).1 =
          { config with authorization := some ("Bearer " ++ token) }) ∧
      (requestInterceptor none config).1 = config ∧
      (requestInterceptor (some "") config).1 = config := by
  intro store token config
  refine ⟨?_, ?_, rfl, rfl⟩
  · cases store with
    | none => rfl
    | some t =>
      simp only [requestInterceptor, getAuthToken]
      split <;> rfl
  · intro h
    have h0 : (token == "") = false := by
      simpa [truthy] using h
    simp [requestInterceptor, getAuthToken, h0]

/-- Claim C8 witness: with tok-1 stored, the request carries the bearer
header for tok-1. -/
theorem interceptorBearerHeaderWitness :
    (requestInterceptor (some "tok-1") baseHeaders).1 =
      { baseHeaders with authorization := some ("Bearer " ++ "tok-1") } :=
  (interceptorBearerHeader (some "tok-1") "tok-1" baseHeaders).2.1 (by decide)

/-- Claim C10: a listRepositories call with omitted arguments requests
skip 0 and limit 100, a listAnalyses call with omitted arguments requests
skip 0 and limit 50, and explicitly passed values override these
client-side defaults. -/
theorem defaultPaginationParams :
    listRepositoriesRequest none none = { skip := 0, limit := 100 } ∧
    listAnalysesRequest none none = { skip := 0, limit := 50 } ∧
    ∀ s l : Nat,
      listRepositoriesRequest (some s) (some l) = { skip := s, limit := l } ∧
      listAnalysesRequest (some s) (some l) = { skip := s, limit := l } := by
  exact ⟨rfl, rfl, fun s l => ⟨rfl, rfl⟩⟩

/-- Claim C2 counterexample: a callback URL carrying an error parameter with
an empty value (error present, as in a query string ending in error=) plus a
code still triggers the exchange — the handler tests JavaScript truthiness,
not presence, so the empty-valued error parameter does not yield the
denied-authorization outcome and exchangeCode is called. -/
theorem emptyErrorParamStillExchanges :
    (handleCallback { user := none, loading := true, store := none }
        (some "abc123") none (some "")
        (Except.ok sampleToken)).exchangeCalls = [("abc123", none)] ∧
    (handleCallback { user := none, loading := true, store := none }
        (some "abc123") none (some "")
        (Except.ok sampleToken)).errorMessage = none := by
  exact ⟨rfl, rfl⟩

/-- Claim C2 (amended): if the error parameter is present with a nonempty
value (truthy), the handler yields the denied-authorization outcome and
never calls the exchange, even when code is present; otherwise, if code is
absent or empty, it yields the missing-code outcome without calling the
exchange; otherwise it calls the exchange exactly once with the code value
from the URL and with the state value when nonempty, an absent or empty
state being passed as absent. -/
theorem callbackPrecedence :
    ∀ (st : AuthState) (code state error : Option String)
      (res : Except ApiError AuthToken),
      (truthy error = true →
        (handleCallback st code state error res).exchangeCalls = [] ∧
        (handleCallback st code state error res).errorMessage =
          some "GitHub authentication was denied") ∧
      (truthy error = false → truthy code = false →
        (handleCallback st code state error res).exchangeCalls = [] ∧
        (handleCallback st code state error res).errorMessage =
          some "No authorization code received") ∧
      (truthy error = false → truthy code = true →
        (handleCallback st code state error res).exchangeCalls =
          [(code.getD "", if truthy state then state else none)]) := by
  intro st code state error res
  refine ⟨?_, ?_, ?_⟩
  · intro he
    simp [handleCallback, he]
  · intro he hc
    simp [handleCallback, he, hc]
  · intro he hc
    cases res <;> simp [handleCallback, he, hc]

/-- Claim C2 witness: the callback with code abc123 and state xyz and no
error parameter calls the exchange exactly once with those literal
values. -/
theorem callbackPrecedenceWitness :
    (handleCallback { user := none, loading := true, store := none }
        (some "abc123") (some "xyz") none
        (Except.ok sampleToken)).exchangeCalls = [("abc123", some "xyz")] :=
  (callbackPrecedence { user := none, loading := true, store := none }
      (some "abc123") (some "xyz") none (Except.ok sampleToken)).2.2
    (by decide) (by decide)

/-- Claim C9 counterexample: two successful exchanges that differ only in
the token type (issuing scheme) leave the client in identical states — the
scheme is discarded by login, so the persisted credential does not comprise
the token type, contrary to the claim. -/
theorem tokenTypeNotPersisted :
    login { user := none, loading := false, store := none }
        { access_token := "tok-1", token_type := "bearer", user := sampleUser } =
      login { user := none, loading := false, store := none }
        { access_token := "tok-1", token_type := "mac", user := sampleUser } := by
  exact rfl

/-- Claim C9 (amended): after a successful token exchange the store holds
exactly the opaque bearer token string of the exchange payload — the token
type is not persisted — and the store is written by the callback handler
only through login on a successful exchange: in every other outcome the
session state is returned unchanged. -/
theorem loginPersistsTokenStringOnly :
    ∀ (st : AuthState) (tokenData : AuthToken) (code state error : Option String)
      (res : Except ApiError AuthToken),
      (login st tokenData).store = some tokenData.access_token ∧
      ((handleCallback st code state error res).sessionState = st ∨
        ∃ td : AuthToken, res = Except.ok td ∧
          (handleCallback st code state error res).sessionState = login st td) := by
  intro st tokenData code state error res
  refine ⟨rfl, ?_⟩
  cases he : truthy error with
  | true =>
    left
    simp [handleCallback, he]
  | false =>
    cases hc : truthy code with
    | false =>
      left
      simp [handleCallback, he, hc]
    | true =>
      cases res with
      | ok td =>
        right
        exact ⟨td, rfl, by simp [handleCallback, he, hc]⟩
      | error e =>
        left
        simp [handleCallback, he, hc]

/-- Claim C7: when the sync call fails, the repository list is exactly what
it was before the call, whatever the failure; the alert text is the backend
detail verbatim when one is present — a truthy detail, the source's
detail-or-generic fallthrough — and the generic failure text when the
failure carries none; when the call succeeds, the list is replaced by the
returned set, the synced count is reported, and a successful stats fetch
refreshes the stats. -/
theorem syncFailureLeavesListIntact :
    ∀ (st : DashboardState) (statsResult : Except ApiError RepoStats),
      (∀ e : ApiError,
        (handleSyncRepositories st (Except.error e) statsResult).1.repositories =
          st.repositories) ∧
      (∀ d : String, truthy (some d) = true →
        (handleSyncRepositories st (Except.error { detail := some d })
            statsResult).2 = d) ∧
      (handleSyncRepositories st (Except.error { detail := none })
          statsResult).2 = "Failed to sync repositories" ∧
      (∀ r : SyncResult,
        (handleSyncRepositories st (Except.ok r) statsResult).1.repositories =
          r.repositories ∧
        (handleSyncRepositories st (Except.ok r) statsResult).2 =
          "Successfully synced " ++ toString r.synced_count ++ " repositories!" ∧
        ∀ s2 : RepoStats,
          (handleSyncRepositories st (Except.ok r) (Except.ok s2)).1.stats =
            some s2) := by
  intro st statsResult
  refine ⟨fun e => rfl, ?_, rfl, fun r => ⟨?_, rfl, fun s2 => rfl⟩⟩
  · intro d hd
    have h0 : (d == "") = false := by
      simpa [truthy] using hd
    simp [handleSyncRepositories, jsOr, h0]
  · cases statsResult <;> rfl

/-- Claim C7 witness: a sync failure whose backend detail is rate limited
leaves the repository list as it was and surfaces rate limited verbatim. -/
theorem syncFailureLeavesListIntactWitness :
    (handleSyncRepositories { repositories := [], stats := none, syncing := false }
        (Except.error { detail := some "rate limited" })
        (Except.error { detail := none })).2 = "rate limited" :=
  (syncFailureLeavesListIntact
      { repositories := [], stats := none, syncing := false }
      (Except.error { detail := none })).2.1 "rate limited" (by decide)

/-- Claim C1 counterexample: in the navigating variant of the analysis
trigger, a non-exception result with status failed produces a blocking
alert and not a navigation to the results view addressed by the returned
analysis id — the claim's route-on-every-non-exception-outcome fails. -/
theorem analyzeFailedDoesNotNavigate :
    handleAnalyzeRepositoryV2 "acme/site"
        (Except.ok { analysis_id := 7, status := "failed" }) =
      AnalyzeAction.alert "❌ Analysis failed for acme/site" ∧
    handleAnalyzeRepositoryV2 "acme/site"
        (Except.ok { analysis_id := 7, status := "failed" }) ≠
      AnalyzeAction.navigate "/analysis/results?id=7" := by
  exact ⟨rfl, by decide⟩

/-- Claim C1 (amended): the navigating variant of handleAnalyzeRepository
routes to the results view addressed by the returned analysis id for every
non-exception result whose status is not failed (completed, pending,
running, or anything else), but on status failed it shows a failure alert
and does not navigate; the other observed variant reports every outcome
with an alert and never navigates. -/
theorem analyzeRoutesExceptFailed :
    ∀ (repoName : String) (analysisId : Nat) (status : String),
      (status ≠ "failed" →
        handleAnalyzeRepositoryV2 repoName
            (Except.ok { analysis_id := analysisId, status := status }) =
          AnalyzeAction.navigate ("/analysis/results?id=" ++ toString analysisId)) ∧
      handleAnalyzeRepositoryV2 repoName
          (Except.ok { analysis_id := analysisId, status := "failed" }) =
        AnalyzeAction.alert ("❌ Analysis failed for " ++ repoName) ∧
      (∃ message : String,
        handleAnalyzeRepositoryV1 repoName
            (Except.ok { analysis_id := analysisId, status := status }) =
          AnalyzeAction.alert message) := by
  intro repoName analysisId status
  refine ⟨?_, rfl, ?_⟩
  · intro h
    by_cases hcomp : status = "completed"
    · subst hcomp
      rfl
    · have h1 : (status == "completed") = false := beq_eq_false_iff_ne.mpr hcomp
      have h2 : (status == "failed") = false := beq_eq_false_iff_ne.mpr h
      simp [handleAnalyzeRepositoryV2, h1, h2]
  · by_cases hcomp : status = "completed"
    · subst hcomp
      exact ⟨_, rfl⟩
    · by_cases hfail : status = "failed"
      · subst hfail
        exact ⟨_, rfl⟩
      · have h1 : (status == "completed") = false := beq_eq_false_iff_ne.mpr hcomp
        have h2 : (status == "failed") = false := beq_eq_false_iff_ne.mpr hfail
        exact ⟨"⏳ Analysis in progress for " ++ repoName ++ "...",
          by simp [handleAnalyzeRepositoryV1, h1, h2]⟩

/-- Claim C1 witness: the pending result with analysis id 7 routes to the
results view addressed by 7. -/
theorem analyzeRoutesExceptFailedWitness :
    handleAnalyzeRepositoryV2 "acme/api"
        (Except.ok { analysis_id := 7, status := "pending" }) =
      AnalyzeAction.navigate ("/analysis/results?id=" ++ toString 7) :=
  (analyzeRoutesExceptFailed "acme/api" 7 "pending").1 (by decide)

/-- Claim C6: filtering with the selector all returns the input list
unchanged in length and order for every input including the empty list;
filtering with any of the specific severity selectors returns exactly the
issues whose severity equals the selector case-insensitively — those whose
lowercased severity is the (lowercase) selector — preserving their original
relative order, stated as equality with the List.filter of the
case-insensitive comparison; the function is pure, so it has no side
effects. -/
theorem filterSeveritySpec :
    ∀ (issues : List CodeIssue) (s : String),
      filteredIssues issues "all" = issues ∧
      (s = "critical" ∨ s = "high" ∨ s = "medium" ∨ s = "low" →
        filteredIssues issues s =
          issues.filter (fun issue =>
            lowercaseString issue.severity == lowercaseString s)) := by
  intro issues s
  constructor
  · exact List.filter_eq_self.mpr (fun a _ => by simp)
  · intro hs
    have hlow : lowercaseString s = s ∧ (s == "all") = false := by
      rcases hs with rfl | rfl | rfl | rfl <;> exact ⟨rfl, rfl⟩
    unfold filteredIssues
    refine List.filter_congr (fun a _ => ?_)
    rw [hlow.1, hlow.2, Bool.false_or]

/-- Claim C6 witness: the selector critical keeps the sample issue whose
severity is the uppercase CRITICAL. -/
theorem filterSeveritySpecWitness :
    filteredIssues [sampleIssue] "critical" =
      List.filter (fun issue =>
        lowercaseString issue.severity == lowercaseString "critical")
        [sampleIssue] :=
  (filterSeveritySpec [sampleIssue] "critical").2 (Or.inl rfl)
